import Mathlib

/-!
Shallow embedding of the Contract Management Python SDK
(`contract_sdk/client.py`): the `ContractManagementClient` request pipeline
(`_make_request`), error translation (`_handle_error`), token refresh
(`_refresh_access_token`), the authentication methods (`login`, `logout`),
the body/query builders of the resource wrapper methods, and
`upload_attachment`.  The network is modelled as an oracle mapping the index
of each outgoing HTTP request to its outcome; recursion between
`_make_request` and `_refresh_access_token` is bounded by explicit fuel
(Python's recursion limit).
-/

namespace ContractSDK

/-- JSON values as Python's `json` module produces them (JSON null is
Python `None`, objects are dicts in insertion order). -/
inductive JVal where
  | null
  | bool (b : Bool)
  | num (n : Int)
  | str (s : String)
  | arr (xs : List JVal)
  | obj (kvs : List (String × JVal))

/-- Dict lookup (`d.get(k)` / `k in d`): first binding of the key, if any. -/
def jLookup : List (String × JVal) → String → Option JVal
  | [], _ => none
  | (k, v) :: rest, key => if k = key then some v else jLookup rest key

/-- Python truthiness of a JSON value (`bool(x)`): `None`, `False`, `0`,
`""`, `[]` and `{}` are falsy. -/
def pyTruthy : JVal → Bool
  | .null => false
  | .bool b => b
  | .num n => n != 0
  | .str s => s != ""
  | .arr xs => !xs.isEmpty
  | .obj kvs => !kvs.isEmpty

/-- Truthiness of an optional JSON value (`None` is falsy). -/
def optTruthy : Option JVal → Bool
  | none => false
  | some v => pyTruthy v

mutual
/-- Python `repr` of a JSON value. -/
def pyRepr : JVal → String
  | .null => "None"
  | .bool true => "True"
  | .bool false => "False"
  | .num n => toString n
  | .str s => "\x27" ++ s ++ "\x27"
  | .arr xs => "[" ++ pyReprItems xs ++ "]"
  | .obj kvs => "\x7b" ++ pyReprFields kvs ++ "\x7d"

/-- `repr` of the comma-separated items of a Python list. -/
def pyReprItems : List JVal → String
  | [] => ""
  | [v] => pyRepr v
  | v :: w :: rest => pyRepr v ++ ", " ++ pyReprItems (w :: rest)

/-- `repr` of the comma-separated `key: value` fields of a Python dict. -/
def pyReprFields : List (String × JVal) → String
  | [] => ""
  | [(k, v)] => "\x27" ++ k ++ "\x27: " ++ pyRepr v
  | (k, v) :: kv :: rest =>
      "\x27" ++ k ++ "\x27: " ++ pyRepr v ++ ", " ++ pyReprFields (kv :: rest)
end

/-- Python `str` of a JSON value (as an f-string interpolates it):
identical to `repr` except on strings. -/
def pyStr : JVal → String
  | .str s => s
  | .null => "None"
  | .bool true => "True"
  | .bool false => "False"
  | .num n => toString n
  | .arr xs => "[" ++ pyReprItems xs ++ "]"
  | .obj kvs => "\x7b" ++ pyReprFields kvs ++ "\x7d"

/-- `str` of an optional JSON value (`f"Bearer {self.access_token}"` renders
Python `None` as `"None"`). -/
def pyStrOpt : Option JVal → String
  | none => "None"
  | some v => pyStr v

/-- The four exception classes of the SDK: `APIError` and its subclasses
`AuthenticationError`, `ValidationError`, `NetworkError`. -/
inductive ErrKind where
  | api
  | auth
  | validation
  | network

/-- Payload of an `APIError` (`message`, `code`, `status_code`, `details`). -/
structure APIErr where
  kind : ErrKind
  message : JVal
  code : Option JVal
  status_code : Option Nat
  details : Option JVal

/-- A Python exception the modelled code can raise: an SDK `APIError`
(with its subclass recorded in `kind`), a builtin `ValueError`, `KeyError`
or `TypeError`, or `RecursionError` (the model's fuel ran out inside the
mutual recursion of `_make_request` and `_refresh_access_token`). -/
inductive PyExc where
  | api (e : APIErr)
  | valueError (msg : String)
  | keyError (key : String)
  | typeError (msg : String)
  | recursionError

/-- `NetworkError(msg)` as raised by `_make_request`. -/
def netErr (m : String) : PyExc :=
  .api { kind := .network, message := .str m, code := none,
         status_code := none, details := none }

/-- A plain `APIError(msg)` as raised by `_make_request`'s final
`except requests.exceptions.RequestException` clause. -/
def plainApiErr (m : String) : PyExc :=
  .api { kind := .api, message := .str m, code := none,
         status_code := none, details := none }

/-- `AuthenticationError("No refresh token available")`. -/
def noRefreshTokenErr : PyExc :=
  .api { kind := .auth, message := .str "No refresh token available",
         code := none, status_code := none, details := none }

/-- Python subscription `v[key]` on a decoded JSON value: dict lookup,
`KeyError` when the key is missing, `TypeError` when the value is not a
dict. -/
def pySubscript (v : JVal) (key : String) : Except PyExc JVal :=
  match v with
  | .obj kvs =>
      match jLookup kvs key with
      | some x => .ok x
      | none => .error (.keyError key)
  | _ => .error (.typeError "value is not subscriptable by str")

/-- Mutable credential state of `ContractManagementClient` (`base_url`,
`api_key`, `access_token`, `refresh_token`, `timeout`, `verify_ssl`).
Tokens hold decoded JSON values because `login`/`_refresh_access_token`
store whatever the response carried. -/
structure ClientState where
  base_url : String
  api_key : Option String
  access_token : Option JVal
  refresh_token : Option JVal
  timeout : Nat
  verify_ssl : Bool

/-- Strip trailing `/` characters (`base_url.rstrip('/')`). -/
def rstripSlashes (s : String) : String :=
  String.mk (((s.toList.reverse).dropWhile (fun c => c = '/')).reverse)

/-- `ContractManagementClient.__init__`: `refresh_token` starts as `None`. -/
def initClient (base_url : String) (api_key access_token : Option String)
    (timeout : Nat) (verify_ssl : Bool) : ClientState :=
  { base_url := rstripSlashes base_url
    api_key := api_key
    access_token := access_token.map .str
    refresh_token := none
    timeout := timeout
    verify_ssl := verify_ssl }

/-- The session's default headers: `Content-Type`, `User-Agent` and, when a
truthy API key was configured, `X-API-Key` (lines 86-93 of `client.py`). -/
def sessionHeaders (st : ClientState) : List (String × String) :=
  [("Content-Type", "application/json"),
   ("User-Agent", "ContractManagementSDK-Python/1.0.0")] ++
  (match st.api_key with
   | some k => if k = "" then [] else [("X-API-Key", k)]
   | none => [])

/-- The per-request headers built at lines 107-110: `Authorization: Bearer
<access_token>` exactly when the held access token is truthy. -/
def requestHeaders (st : ClientState) : List (String × String) :=
  match st.access_token with
  | some t => if pyTruthy t then [("Authorization", "Bearer " ++ pyStr t)] else []
  | none => []

/-- `requests` merges the session headers with the per-request headers,
the per-request value winning for a key present in both. -/
def mergeHeaders (sess req : List (String × String)) : List (String × String) :=
  sess.filter (fun kv => (req.lookup kv.1).isNone) ++ req

/-- Outcome of one transport-level `session.request` call: an HTTP response
(status, raw text, and the result of JSON-decoding the text, `none` when
the body is empty or not valid JSON), or a `requests` exception. -/
inductive NetOutcome where
  | resp (status : Nat) (text : String) (json : Option JVal)
  | connError (msg : String)
  | timeout (msg : String)
  | reqExc (msg : String)

/-- The network oracle: the outcome of the n-th request the session sends. -/
def Oracle : Type := Nat → NetOutcome

/-- One HTTP request as handed to `session.request`. -/
structure SentRequest where
  method : String
  endpoint : String
  headers : List (String × String)
  body : Option (List (String × JVal))
  params : Option (List (String × JVal))
  files : Bool
  stream : Bool

/-- The client's observable execution state: credential state, how many
requests were sent so far (the oracle index), and the log of sent
requests. -/
structure Effect where
  st : ClientState
  idx : Nat
  log : List SentRequest

/-- The value `_make_request` produces on success: the decoded JSON body
(`none` for Python `None` on an empty body), or the raw streaming
response. -/
inductive ReqResult where
  | jsonBody (v : Option JVal)
  | streamResp (status : Nat) (text : String)

/-- The first request a `_make_request` call sends (lines 105-127): headers
are the session defaults merged with the freshly built auth header; `data`
is serialized only when no file payload is attached. -/
def firstRequest (eff : Effect) (method endpoint : String)
    (data params : Option (List (String × JVal))) (files stream : Bool) :
    SentRequest :=
  { method := method
    endpoint := endpoint
    headers := mergeHeaders (sessionHeaders eff.st) (requestHeaders eff.st)
    body := if files then none else data
    params := params
    files := files
    stream := stream }

/-- The resent request after a token refresh (lines 132-134): the
`Authorization` entry of the headers dict is overwritten with the freshly
stored access token, unconditionally. -/
def retryRequest (eff : Effect) (method endpoint : String)
    (data params : Option (List (String × JVal))) (files stream : Bool) :
    SentRequest :=
  { method := method
    endpoint := endpoint
    headers := mergeHeaders (sessionHeaders eff.st)
      [("Authorization", "Bearer " ++ pyStrOpt eff.st.access_token)]
    body := if files then none else data
    params := params
    files := files
    stream := stream }

/-- `_handle_error` (lines 154-171): pull `message`/`code`/`details` from
the decoded JSON body when it decoded to a dict; otherwise (no body,
invalid JSON, or a non-dict value, all caught by the bare `except`)
synthesize them from the status; then raise the subclass selected by the
status code. -/
def handle_error (status : Nat) (text : String) (parsed : Option JVal) : PyExc :=
  let mcd : JVal × Option JVal × Option JVal :=
    match parsed with
    | some (.obj kvs) =>
        ((jLookup kvs "message").getD (.str "An error occurred"),
         some ((jLookup kvs "code").getD (.str "UNKNOWN_ERROR")),
         jLookup kvs "details")
    | _ =>
        (.str ("HTTP " ++ toString status ++ ": " ++ text),
         some (.str ("HTTP_" ++ toString status)),
         none)
  if status = 401 then
    .api { kind := .auth, message := mcd.1, code := mcd.2.1,
           status_code := some status, details := mcd.2.2 }
  else if status = 400 then
    .api { kind := .validation, message := mcd.1, code := mcd.2.1,
           status_code := some status, details := mcd.2.2 }
  else
    .api { kind := .api, message := mcd.1, code := mcd.2.1,
           status_code := some status, details := mcd.2.2 }

/-- `response.raise_for_status()` raises exactly for statuses 400-599;
then `_make_request` returns the raw response when streaming, the decoded
JSON when the body is non-empty (a 2xx body that is not valid JSON raises
`requests.exceptions.JSONDecodeError`, a `RequestException`, so the last
`except` clause wraps it in a plain `APIError`), and Python `None` for an
empty body (lines 136-143). -/
def finishResponse (stream : Bool) (status : Nat) (text : String)
    (json : Option JVal) : Except PyExc ReqResult :=
  if 400 ≤ status ∧ status < 600 then
    .error (handle_error status text json)
  else if stream then
    .ok (.streamResp status text)
  else if text = "" then
    .ok (.jsonBody none)
  else
    match json with
    | some v => .ok (.jsonBody (some v))
    | none => .error (plainApiErr "Request failed: response body is not valid JSON")

/-- The dict value the refresh POST sends for `refreshToken`. -/
def refreshTokenVal (st : ClientState) : JVal :=
  st.refresh_token.getD .null

mutual
/-- `_make_request` (lines 95-152): build headers, send, and on a 401 with
a truthy refresh token call `_refresh_access_token` (which itself calls
`_make_request` on `/auth/refresh` — fuel bounds that mutual recursion),
rebuild the auth header and resend once; then `raise_for_status` and
decode.  Exceptions raised by the nested refresh are SDK exceptions, not
`requests` ones, so the `except` clauses do not catch them and they
propagate unchanged. -/
def make_request (fuel : Nat) (oracle : Oracle) (eff : Effect)
    (method endpoint : String) (data params : Option (List (String × JVal)))
    (files stream : Bool) : Except PyExc ReqResult × Effect :=
  let req := firstRequest eff method endpoint data params files stream
  let eff1 : Effect := ⟨eff.st, eff.idx + 1, eff.log ++ [req]⟩
  match oracle eff.idx with
  | .connError m => (.error (netErr ("Connection error: " ++ m)), eff1)
  | .timeout m => (.error (netErr ("Request timeout: " ++ m)), eff1)
  | .reqExc m => (.error (plainApiErr ("Request failed: " ++ m)), eff1)
  | .resp status text json =>
      if status = 401 ∧ optTruthy eff.st.refresh_token then
        match fuel with
        | 0 => (.error .recursionError, eff1)
        | fuel + 1 =>
            match refresh_access_token fuel oracle eff1 with
            | (.error e, eff2) => (.error e, eff2)
            | (.ok _, eff2) =>
                let req2 := retryRequest eff2 method endpoint data params files stream
                let eff3 : Effect := ⟨eff2.st, eff2.idx + 1, eff2.log ++ [req2]⟩
                match oracle eff2.idx with
                | .connError m => (.error (netErr ("Connection error: " ++ m)), eff3)
                | .timeout m => (.error (netErr ("Request timeout: " ++ m)), eff3)
                | .reqExc m => (.error (plainApiErr ("Request failed: " ++ m)), eff3)
                | .resp s2 t2 j2 => (finishResponse stream s2 t2 j2, eff3)
      else
        (finishResponse stream status text json, eff1)

/-- `_refresh_access_token` (lines 173-183): `AuthenticationError` when no
truthy refresh token is held; otherwise POST the refresh token to
`/auth/refresh`, then store `data['accessToken']` and *afterwards*
`data['refreshToken']` — a missing `refreshToken` key raises `KeyError`
after `access_token` was already overwritten. -/
def refresh_access_token (fuel : Nat) (oracle : Oracle) (eff : Effect) :
    Except PyExc Unit × Effect :=
  if optTruthy eff.st.refresh_token = false then
    (.error noRefreshTokenErr, eff)
  else
    match fuel with
    | 0 => (.error .recursionError, eff)
    | fuel + 1 =>
        match make_request fuel oracle eff "POST" "/auth/refresh"
            (some [("refreshToken", refreshTokenVal eff.st)]) none false false with
        | (.error e, eff2) => (.error e, eff2)
        | (.ok (.streamResp _ _), eff2) =>
            (.error (.typeError "response is not subscriptable"), eff2)
        | (.ok (.jsonBody none), eff2) =>
            (.error (.typeError "NoneType is not subscriptable"), eff2)
        | (.ok (.jsonBody (some v)), eff2) =>
            match pySubscript v "accessToken" with
            | .error e => (.error e, eff2)
            | .ok a =>
                let effA : Effect :=
                  ⟨{ eff2.st with access_token := some a }, eff2.idx, eff2.log⟩
                match pySubscript v "refreshToken" with
                | .error e => (.error e, effA)
                | .ok r =>
                    (.ok (), ⟨{ effA.st with refresh_token := some r }, effA.idx, effA.log⟩)
end

/-- The JSON body `login` assembles (lines 199-205): `email` and
`password` always, `twoFactorCode` only when truthy. -/
def login_body (email password : String) (two_factor_code : Option String) :
    List (String × JVal) :=
  let base := [("email", JVal.str email), ("password", JVal.str password)]
  match two_factor_code with
  | some c => if c = "" then base else base ++ [("twoFactorCode", JVal.str c)]
  | none => base

/-- `login` (lines 187-212): POST the credentials, then store
`response['accessToken']` and afterwards `response['refreshToken']`, and
return the response. -/
def login (fuel : Nat) (oracle : Oracle) (eff : Effect)
    (email password : String) (two_factor_code : Option String) :
    Except PyExc JVal × Effect :=
  match make_request fuel oracle eff "POST" "/auth/login"
      (some (login_body email password two_factor_code)) none false false with
  | (.error e, eff1) => (.error e, eff1)
  | (.ok (.streamResp _ _), eff1) =>
      (.error (.typeError "response is not subscriptable"), eff1)
  | (.ok (.jsonBody none), eff1) =>
      (.error (.typeError "NoneType is not subscriptable"), eff1)
  | (.ok (.jsonBody (some v)), eff1) =>
      match pySubscript v "accessToken" with
      | .error e => (.error e, eff1)
      | .ok a =>
          let effA : Effect :=
            ⟨{ eff1.st with access_token := some a }, eff1.idx, eff1.log⟩
          match pySubscript v "refreshToken" with
          | .error e => (.error e, effA)
          | .ok r =>
              (.ok v, ⟨{ effA.st with refresh_token := some r }, effA.idx, effA.log⟩)

/-- Set both tokens to `None` (the `finally` block of `logout`). -/
def clearTokens (eff : Effect) : Effect :=
  ⟨{ eff.st with access_token := none, refresh_token := none }, eff.idx, eff.log⟩

/-- `logout` (lines 214-220): `try: _make_request(...) finally: clear both
tokens`.  The `finally` clause has no `except` — it always clears the
tokens, and an exception from the server call still propagates to the
caller. -/
def logout (fuel : Nat) (oracle : Oracle) (eff : Effect) :
    Except PyExc Unit × Effect :=
  let res := make_request fuel oracle eff "POST" "/auth/logout" none none false false
  (res.1.map (fun _ => ()), clearTokens res.2)

/-- Append `(key, str value)` when the optional string argument is truthy
(the `if arg:` pattern of the wrapper methods — `None` and `""` are both
omitted). -/
def addIfStr (ps : List (String × JVal)) (key : String) (v : Option String) :
    List (String × JVal) :=
  match v with
  | some s => if s = "" then ps else ps ++ [(key, .str s)]
  | none => ps

/-- Append `(key, list value)` when the optional list argument is truthy
(`None` and `[]` are both omitted). -/
def addIfArr (ps : List (String × JVal)) (key : String)
    (v : Option (List JVal)) : List (String × JVal) :=
  match v with
  | some l => if l.isEmpty then ps else ps ++ [(key, .arr l)]
  | none => ps

/-- Append `(key, list-of-strings value)` when the optional argument is
truthy. -/
def addIfStrArr (ps : List (String × JVal)) (key : String)
    (v : Option (List String)) : List (String × JVal) :=
  match v with
  | some l => if l = [] then ps else ps ++ [(key, .arr (l.map .str))]
  | none => ps

/-- Append `(key, dict value)` when the optional dict argument is truthy
(`None` and `{}` are both omitted). -/
def addIfObj (ps : List (String × JVal)) (key : String)
    (v : Option (List (String × JVal))) : List (String × JVal) :=
  match v with
  | some kvs => if kvs.isEmpty then ps else ps ++ [(key, .obj kvs)]
  | none => ps

/-- Append `(key, value)` when the optional argument is not `None` (the
`if arg is not None:` pattern used for the numeric fields). -/
def addIfNotNone (ps : List (String × JVal)) (key : String)
    (v : Option JVal) : List (String × JVal) :=
  match v with
  | some x => ps ++ [(key, x)]
  | none => ps

/-- The JSON body `create_contract` assembles (lines 306-328): `title` and
`type` always; `description`, `currency`, `startDate`, `endDate`,
`content`, `parties`, `metadata`, `tags` by truthiness; `value` by
`is not None`. -/
def create_contract_body (title ty : String)
    (description : Option String) (value : Option JVal)
    (currency start_date end_date content : Option String)
    (parties : Option (List JVal)) (metadata : Option (List (String × JVal)))
    (tags : Option (List String)) : List (String × JVal) :=
  let d := [("title", JVal.str title), ("type", JVal.str ty)]
  let d := addIfStr d "description" description
  let d := addIfNotNone d "value" value
  let d := addIfStr d "currency" currency
  let d := addIfStr d "startDate" start_date
  let d := addIfStr d "endDate" end_date
  let d := addIfStr d "content" content
  let d := addIfArr d "parties" parties
  let d := addIfObj d "metadata" metadata
  addIfStrArr d "tags" tags

/-- `create_contract` (lines 273-330): POST the assembled body to
`/contracts`. -/
def create_contract (fuel : Nat) (oracle : Oracle) (eff : Effect)
    (title ty : String) (description : Option String) (value : Option JVal)
    (currency start_date end_date content : Option String)
    (parties : Option (List JVal)) (metadata : Option (List (String × JVal)))
    (tags : Option (List String)) : Except PyExc ReqResult × Effect :=
  make_request fuel oracle eff "POST" "/contracts"
    (some (create_contract_body title ty description value currency
      start_date end_date content parties metadata tags)) none false false

/-- `update_contract` (lines 332-334): PUT exactly the caller's `**kwargs`
mapping — keys the caller omitted are simply not in the mapping. -/
def update_contract (fuel : Nat) (oracle : Oracle) (eff : Effect)
    (contract_id : String) (kwargs : List (String × JVal)) :
    Except PyExc ReqResult × Effect :=
  make_request fuel oracle eff "PUT" ("/contracts/" ++ contract_id)
    (some kwargs) none false false

/-- The query parameters `get_contracts` assembles (lines 253-265):
`page`, `limit`, `sortBy`, `sortOrder` always; `status`, `type`, `search`
by truthiness. -/
def get_contracts_params (status ty search : Option String)
    (page limit : Int) (sort_by sort_order : String) : List (String × JVal) :=
  let ps := [("page", JVal.num page), ("limit", JVal.num limit),
             ("sortBy", JVal.str sort_by), ("sortOrder", JVal.str sort_order)]
  let ps := addIfStr ps "status" status
  let ps := addIfStr ps "type" ty
  addIfStr ps "search" search

/-- `get_contracts` (lines 228-267): GET `/contracts` with the assembled
query parameters. -/
def get_contracts (fuel : Nat) (oracle : Oracle) (eff : Effect)
    (status ty search : Option String) (page limit : Int)
    (sort_by sort_order : String) : Except PyExc ReqResult × Effect :=
  make_request fuel oracle eff "GET" "/contracts" none
    (some (get_contracts_params status ty search page limit sort_by sort_order))
    false false

/-- The JSON body `create_template` assembles (lines 459-487): `name`,
`category`, `content`, `isPublic` always; `description`, `variables`,
`tags` by truthiness; `price` by `is not None`. -/
def create_template_body (name category content : String) (is_public : Bool)
    (description : Option String) (vars : Option (List JVal))
    (tags : Option (List String)) (price : Option JVal) :
    List (String × JVal) :=
  let d := [("name", JVal.str name), ("category", JVal.str category),
            ("content", JVal.str content), ("isPublic", JVal.bool is_public)]
  let d := addIfStr d "description" description
  let d := addIfArr d "variables" vars
  let d := addIfStrArr d "tags" tags
  addIfNotNone d "price" price

/-- `create_template`: POST the assembled body to `/templates`. -/
def create_template (fuel : Nat) (oracle : Oracle) (eff : Effect)
    (name category content : String) (is_public : Bool)
    (description : Option String) (vars : Option (List JVal))
    (tags : Option (List String)) (price : Option JVal) :
    Except PyExc ReqResult × Effect :=
  make_request fuel oracle eff "POST" "/templates"
    (some (create_template_body name category content is_public description
      vars tags price)) none false false

/-- The JSON body `add_comment` assembles (lines 395-413): `content`
always; `parentId`, `position`, `mentions` by truthiness. -/
def add_comment_body (content : String) (parent_id : Option String)
    (position : Option (List (String × JVal))) (mentions : Option (List String)) :
    List (String × JVal) :=
  let d := [("content", JVal.str content)]
  let d := addIfStr d "parentId" parent_id
  let d := addIfObj d "position" position
  addIfStrArr d "mentions" mentions

/-- `upload_attachment` (lines 499-536): `os.path.exists` is checked first
and a nonexistent path raises `ValueError` before anything touches the
network; otherwise the file is opened, the remote filename defaults to the
local basename when the argument is falsy, and the multipart POST is
delegated to `_make_request`.  The local filesystem is abstracted by the
`fs_exists`/`fs_basename` observations for the given path. -/
def upload_attachment (fuel : Nat) (oracle : Oracle) (eff : Effect)
    (contract_id file_path : String) (filename : Option String)
    (fs_exists : Bool) (fs_basename : String) :
    Except PyExc ReqResult × Effect :=
  if fs_exists = false then
    (.error (.valueError ("File not found: " ++ file_path)), eff)
  else
    let _fname :=
      match filename with
      | some f => if f = "" then fs_basename else f
      | none => fs_basename
    make_request fuel oracle eff "POST"
      ("/contracts/" ++ contract_id ++ "/attachments") none none true false

/-- How a request is authenticated, as seen by the receiving server. -/
inductive AuthMethod where
  | bearer (headerValue : String)
  | apiKey (key : String)
  | anonymous

/-- Modelled from the spec: the server side of this repository is not under
`src/` (only the SDK is), so the spec's words "bearer header takes
precedence when both exist" are modelled directly — the server
authenticates by the `Authorization` header when one is present, falling
back to `X-API-Key` only when it is absent. -/
def serverAuthMethod (headers : List (String × String)) : AuthMethod :=
  match headers.lookup "Authorization" with
  | some v => .bearer v
  | none =>
      match headers.lookup "X-API-Key" with
      | some k => .apiKey k
      | none => .anonymous

/-- Number of logged requests that are a POST to the refresh endpoint. -/
def refreshPostCount (log : List SentRequest) : Nat :=
  (log.filter (fun r => r.method == "POST" && r.endpoint == "/auth/refresh")).length

/-- A client state for concrete runs (`base_url` already stripped,
default `timeout`/`verify_ssl`). -/
def exState (access refresh : Option JVal) (key : Option String) : ClientState :=
  { base_url := "https://api.example.com"
    api_key := key
    access_token := access
    refresh_token := refresh
    timeout := 30
    verify_ssl := true }

/-- A fresh effect (no requests sent yet) over `exState`. -/
def exEffect (access refresh : Option JVal) (key : Option String) : Effect :=
  ⟨exState access refresh key, 0, []⟩

/-- A server that answers 401 to everything — including the refresh
endpoint (an expired refresh token). -/
def orc401 : Oracle := fun _ => .resp 401 "" none

/-- A server whose login response carries `accessToken` but no
`refreshToken`. -/
def orcHalfToken : Oracle := fun _ =>
  .resp 200 "\x7b\x22accessToken\x22: \x22T1\x22\x7d"
    (some (.obj [("accessToken", .str "T1")]))

/-- A server whose refresh response carries a complete token pair. -/
def orcFullToken : Oracle := fun _ =>
  .resp 200 "\x7b\x22accessToken\x22: \x22T1\x22, \x22refreshToken\x22: \x22R1\x22\x7d"
    (some (.obj [("accessToken", .str "T1"), ("refreshToken", .str "R1")]))

/-- A server that answers 500 with an empty body to everything. -/
def orcHttp500 : Oracle := fun _ => .resp 500 "" none

/-- A server that answers 304 Not Modified (a non-2xx status outside the
400-599 range `raise_for_status` raises for). -/
def orcHttp304 : Oracle := fun _ => .resp 304 "" none

/-- A server that answers 200 with an empty body to everything. -/
def orcOk : Oracle := fun _ => .resp 200 "" none

/-- A client holding both an access token and a refresh token. -/
def effTokens : Effect := exEffect (some (.str "A0")) (some (.str "R0")) none

/-- A client holding stale tokens, about to log in again. -/
def effStale : Effect := exEffect (some (.str "OLD_A")) (some (.str "OLD_R")) none

/-- A client holding only an access token. -/
def effBearerOnly : Effect := exEffect (some (.str "TOK")) none none

/-- A client holding both an access token and an API key. -/
def effBoth : Effect := exEffect (some (.str "TOK9")) none (some "KEY9")

/-- A client with no credentials at all. -/
def effAnon : Effect := exEffect none none none

/-! Helper lemmas about dict lookup and the body builders. -/

theorem jLookup_append (l1 l2 : List (String × JVal)) (key : String) :
    jLookup (l1 ++ l2) key =
      (match jLookup l1 key with
       | some v => some v
       | none => jLookup l2 key) := by
  induction l1 with
  | nil => simp [jLookup]
  | cons kv rest ih =>
      rcases kv with ⟨k, v⟩
      by_cases h : k = key <;> simp [jLookup, h, ih]

theorem jLookup_append_single_ne (ps : List (String × JVal)) (k key : String)
    (v : JVal) (h : k ≠ key) :
    jLookup (ps ++ [(k, v)]) key = jLookup ps key := by
  rw [jLookup_append]
  cases hp : jLookup ps key <;> simp [jLookup, h]

theorem jLookup_append_single_eq (ps : List (String × JVal)) (k : String)
    (v : JVal) (hp : jLookup ps k = none) :
    jLookup (ps ++ [(k, v)]) k = some v := by
  rw [jLookup_append, hp]
  simp [jLookup]

theorem addIfStr_none (ps : List (String × JVal)) (k : String) :
    addIfStr ps k none = ps := rfl

theorem addIfArr_none (ps : List (String × JVal)) (k : String) :
    addIfArr ps k none = ps := rfl

theorem addIfStrArr_none (ps : List (String × JVal)) (k : String) :
    addIfStrArr ps k none = ps := rfl

theorem addIfObj_none (ps : List (String × JVal)) (k : String) :
    addIfObj ps k none = ps := rfl

theorem addIfNotNone_none (ps : List (String × JVal)) (k : String) :
    addIfNotNone ps k none = ps := rfl

theorem jLookup_addIfStr_ne (ps : List (String × JVal)) (k : String)
    (v : Option String) (key : String) (h : k ≠ key) :
    jLookup (addIfStr ps k v) key = jLookup ps key := by
  cases v with
  | none => rfl
  | some s =>
      by_cases hs : s = "" <;>
        simp [addIfStr, hs, jLookup_append_single_ne _ _ _ _ h]

theorem jLookup_addIfArr_ne (ps : List (String × JVal)) (k : String)
    (v : Option (List JVal)) (key : String) (h : k ≠ key) :
    jLookup (addIfArr ps k v) key = jLookup ps key := by
  cases v with
  | none => rfl
  | some l =>
      by_cases hl : l.isEmpty <;>
        simp [addIfArr, hl, jLookup_append_single_ne _ _ _ _ h]

theorem jLookup_addIfStrArr_ne (ps : List (String × JVal)) (k : String)
    (v : Option (List String)) (key : String) (h : k ≠ key) :
    jLookup (addIfStrArr ps k v) key = jLookup ps key := by
  cases v with
  | none => rfl
  | some l =>
      by_cases hl : l = [] <;>
        simp [addIfStrArr, hl, jLookup_append_single_ne _ _ _ _ h]

theorem jLookup_addIfObj_ne (ps : List (String × JVal)) (k : String)
    (v : Option (List (String × JVal))) (key : String) (h : k ≠ key) :
    jLookup (addIfObj ps k v) key = jLookup ps key := by
  cases v with
  | none => rfl
  | some kvs =>
      by_cases hk : kvs.isEmpty <;>
        simp [addIfObj, hk, jLookup_append_single_ne _ _ _ _ h]

theorem jLookup_addIfNotNone_ne (ps : List (String × JVal)) (k : String)
    (v : Option JVal) (key : String) (h : k ≠ key) :
    jLookup (addIfNotNone ps k v) key = jLookup ps key := by
  cases v with
  | none => rfl
  | some x => simp [addIfNotNone, jLookup_append_single_ne _ _ _ _ h]

theorem jLookup_addIfNotNone_some (ps : List (String × JVal)) (k : String)
    (x : JVal) (hp : jLookup ps k = none) :
    jLookup (addIfNotNone ps k (some x)) k = some x := by
  simp [addIfNotNone, jLookup_append_single_eq _ _ _ hp]

/-! Helper lemmas about the request log of the pipeline. -/

/-- `_make_request` and `_refresh_access_token` only ever append to the
log of sent requests. -/
theorem log_mono (fuel : Nat) :
    (∀ (oracle : Oracle) (eff : Effect) (method endpoint : String)
      (data params : Option (List (String × JVal))) (files stream : Bool),
      ∃ l, (make_request fuel oracle eff method endpoint data params files stream).2.log
        = eff.log ++ l)
    ∧ (∀ (oracle : Oracle) (eff : Effect),
      ∃ l, (refresh_access_token fuel oracle eff).2.log = eff.log ++ l) := by
  induction fuel with
  | zero =>
      constructor
      · intro oracle eff method endpoint data params files stream
        simp only [make_request]
        split
        · exact ⟨_, rfl⟩
        · exact ⟨_, rfl⟩
        · exact ⟨_, rfl⟩
        · split
          · exact ⟨_, rfl⟩
          · exact ⟨_, rfl⟩
      · intro oracle eff
        simp only [refresh_access_token]
        split
        · exact ⟨[], (List.append_nil _).symm⟩
        · exact ⟨[], (List.append_nil _).symm⟩
  | succ fuel ih =>
      constructor
      · intro oracle eff method endpoint data params files stream
        simp only [make_request]
        split
        · exact ⟨_, rfl⟩
        · exact ⟨_, rfl⟩
        · exact ⟨_, rfl⟩
        · split
          · rename_i status text json hcond
            split
            · rename_i e eff2 heq
              obtain ⟨l1, hl1⟩ := ih.2 oracle ⟨eff.st, eff.idx + 1,
                eff.log ++ [firstRequest eff method endpoint data params files stream]⟩
              rw [heq] at hl1
              have h2 : eff2.log = (eff.log ++
                  [firstRequest eff method endpoint data params files stream]) ++ l1 := hl1
              refine ⟨[firstRequest eff method endpoint data params files stream] ++ l1, ?_⟩
              rw [h2, List.append_assoc]
            · rename_i u eff2 heq
              obtain ⟨l1, hl1⟩ := ih.2 oracle ⟨eff.st, eff.idx + 1,
                eff.log ++ [firstRequest eff method endpoint data params files stream]⟩
              rw [heq] at hl1
              have h2 : eff2.log = (eff.log ++
                  [firstRequest eff method endpoint data params files stream]) ++ l1 := hl1
              split <;>
              · refine ⟨[firstRequest eff method endpoint data params files stream] ++ l1
                  ++ [retryRequest eff2 method endpoint data params files stream], ?_⟩
                show eff2.log ++ [retryRequest eff2 method endpoint data params files stream] = _
                rw [h2]
                simp [List.append_assoc]
          · exact ⟨_, rfl⟩
      · intro oracle eff
        simp only [refresh_access_token]
        split
        · exact ⟨[], (List.append_nil _).symm⟩
        · obtain ⟨l1, hl1⟩ := ih.1 oracle eff "POST" "/auth/refresh"
            (some [("refreshToken", refreshTokenVal eff.st)]) none false false
          split
          · rename_i e eff2 heq
            rw [heq] at hl1
            exact ⟨l1, hl1⟩
          · rename_i eff2 heq
            rw [heq] at hl1
            exact ⟨l1, hl1⟩
          · rename_i eff2 heq
            rw [heq] at hl1
            exact ⟨l1, hl1⟩
          · rename_i v eff2 heq
            rw [heq] at hl1
            have h2 : eff2.log = eff.log ++ l1 := hl1
            split
            · exact ⟨l1, h2⟩
            · split
              · exact ⟨l1, h2⟩
              · exact ⟨l1, h2⟩

/-- Whatever happens afterwards, a `_make_request` call first sends
`firstRequest` — its log grows by that request and possibly more. -/
theorem make_request_log (fuel : Nat) (oracle : Oracle) (eff : Effect)
    (method endpoint : String) (data params : Option (List (String × JVal)))
    (files stream : Bool) :
    ∃ l, (make_request fuel oracle eff method endpoint data params files stream).2.log
      = eff.log ++ firstRequest eff method endpoint data params files stream :: l := by
  cases fuel with
  | zero =>
      simp only [make_request]
      split
      · exact ⟨[], rfl⟩
      · exact ⟨[], rfl⟩
      · exact ⟨[], rfl⟩
      · split
        · exact ⟨[], rfl⟩
        · exact ⟨[], rfl⟩
  | succ fuel2 =>
      simp only [make_request]
      split
      · exact ⟨[], rfl⟩
      · exact ⟨[], rfl⟩
      · exact ⟨[], rfl⟩
      · split
        · split
          · rename_i e eff2 heq
            obtain ⟨l1, hl1⟩ := (log_mono fuel2).2 oracle ⟨eff.st, eff.idx + 1,
              eff.log ++ [firstRequest eff method endpoint data params files stream]⟩
            rw [heq] at hl1
            have h2 : eff2.log = (eff.log ++
                [firstRequest eff method endpoint data params files stream]) ++ l1 := hl1
            refine ⟨l1, ?_⟩
            rw [h2, List.append_assoc]
            rfl
          · rename_i u eff2 heq
            obtain ⟨l1, hl1⟩ := (log_mono fuel2).2 oracle ⟨eff.st, eff.idx + 1,
              eff.log ++ [firstRequest eff method endpoint data params files stream]⟩
            rw [heq] at hl1
            have h2 : eff2.log = (eff.log ++
                [firstRequest eff method endpoint data params files stream]) ++ l1 := hl1
            split <;>
            · refine ⟨l1 ++ [retryRequest eff2 method endpoint data params files stream], ?_⟩
              show eff2.log ++ [retryRequest eff2 method endpoint data params files stream] = _
              rw [h2]
              simp [List.append_assoc]
        · exact ⟨[], rfl⟩

/-! The claims. -/

/-- C1: the claim says no execution of a single original request performs
more than one refresh cycle.  The code violates this: when the refresh
endpoint itself answers 401 while the refresh token is held (an expired
refresh token), the nested `_make_request('POST', '/auth/refresh', ...)`
re-enters the 401-refresh branch and refreshes again — one original GET
issues two refresh POSTs at recursion budget 5 and four at budget 9,
growing without bound instead of failing after one. -/
theorem c1_more_than_one_refresh_cycle :
    1 < refreshPostCount ((make_request 5 orc401 effTokens
        "GET" "/contracts" none none false false).2.log)
    ∧ refreshPostCount ((make_request 5 orc401 effTokens
        "GET" "/contracts" none none false false).2.log) = 2
    ∧ refreshPostCount ((make_request 9 orc401 effTokens
        "GET" "/contracts" none none false false).2.log) = 4 := by
  refine ⟨?_, rfl, rfl⟩
  decide

/-- C3 counterexample: with a server that fails the logout call with a 500,
`logout()` does not return normally — the `APIError` escapes to the caller
(the `try` has a `finally` but no `except`), so the failure is not
swallowed. -/
theorem c3_logout_error_escapes_cex :
    (logout 1 orcHttp500 effBearerOnly).1
      = .error (.api
          { kind := .api, message := .str "HTTP 500: ",
            code := some (.str "HTTP_500"), status_code := some 500, details := none })
    ∧ (logout 1 orcHttp500 effBearerOnly).1 ≠ .ok () := by
  refine ⟨rfl, ?_⟩
  intro h
  exact Except.noConfusion h

/-- C3 (amended): a failure of the logout server call is raised to the
caller unchanged — `logout` propagates exactly the exception of the
underlying `_make_request` (the `finally` block clears the tokens but does
not suppress the exception), so no SDK operation silently swallows its
server-call failure. -/
theorem c3_logout_failure_propagates (fuel : Nat) (oracle : Oracle) (eff : Effect)
    (e : PyExc)
    (h : (make_request fuel oracle eff "POST" "/auth/logout" none none false false).1
      = .error e) :
    (logout fuel oracle eff).1 = .error e := by
  have hl : (logout fuel oracle eff).1
      = Except.map (fun _ => ())
          (make_request fuel oracle eff "POST" "/auth/logout" none none false false).1 := rfl
  rw [hl, h]
  rfl

/-- C3 witness: the amended theorem applied to the concrete 500-failing
logout run. -/
theorem c3_logout_failure_propagates_witness :
    (make_request 1 orcHttp500 effBearerOnly "POST" "/auth/logout" none none false false).1
      = .error (.api
          { kind := .api, message := .str "HTTP 500: ",
            code := some (.str "HTTP_500"), status_code := some 500, details := none })
    ∧ (logout 1 orcHttp500 effBearerOnly).1
      = .error (.api
          { kind := .api, message := .str "HTTP 500: ",
            code := some (.str "HTTP_500"), status_code := some 500, details := none }) :=
  ⟨rfl, c3_logout_failure_propagates 1 orcHttp500 effBearerOnly _ rfl⟩

/-- C4: whatever the server or network does (any oracle, any fuel, any
starting state), after `logout` both tokens are `None` — the `finally`
block runs on every exit path. -/
theorem c4_logout_clears_tokens (fuel : Nat) (oracle : Oracle) (eff : Effect) :
    (logout fuel oracle eff).2.st.access_token = none
    ∧ (logout fuel oracle eff).2.st.refresh_token = none :=
  ⟨rfl, rfl⟩

/-- C5 counterexample: a 304 Not Modified final response is not 2xx, yet
`raise_for_status` only raises for 400-599, so the pipeline raises no
exception at all — it returns Python `None` — contradicting the claim
that *every* non-2xx response yields an `APIError`-family exception. -/
theorem c5_non2xx_without_exception_cex :
    (make_request 1 orcHttp304 effAnon "GET" "/contracts/1" none none false false).1
      = .ok (.jsonBody none)
    ∧ ¬(200 ≤ 304 ∧ 304 < 300) := by
  exact ⟨rfl, by decide⟩

/-- C7: `upload_attachment` on a path that does not exist raises
`ValueError` — a local precondition error that is a different constructor
from every SDK `APIError` (hence from `ValidationError` and
`NetworkError`) — and returns the effect unchanged: no request is sent
(same log, same request counter) and the token state is untouched. -/
theorem c7_upload_missing_file_fails_locally (fuel : Nat) (oracle : Oracle)
    (eff : Effect) (contract_id file_path : String) (filename : Option String)
    (fs_basename : String) :
    upload_attachment fuel oracle eff contract_id file_path filename false fs_basename
      = (.error (.valueError ("File not found: " ++ file_path)), eff)
    ∧ ∀ e : APIErr,
        (PyExc.valueError ("File not found: " ++ file_path)) ≠ PyExc.api e :=
  ⟨rfl, fun _ h => PyExc.noConfusion h⟩

/-- C2 counterexample: a successful login whose response carries
`accessToken` but no `refreshToken` leaves the client partially updated —
`access_token` already holds the new `"T1"` while `refresh_token` still
holds the previous `"OLD_R"` — and raises `KeyError` only after that
partial write.  The pair is therefore not replaced atomically in every
reachable state. -/
theorem c2_partial_token_update_cex :
    (login 1 orcHalfToken effStale "a@b.com" "pw" none).1
      = .error (.keyError "refreshToken")
    ∧ (login 1 orcHalfToken effStale "a@b.com" "pw" none).2.st.access_token
      = some (.str "T1")
    ∧ (login 1 orcHalfToken effStale "a@b.com" "pw" none).2.st.refresh_token
      = some (.str "OLD_R") :=
  ⟨rfl, rfl, rfl⟩

/-- C2 (amended): on every *successful* `login` and every successful
`_refresh_access_token` exchange — which requires the response to carry
both token fields — the pair is replaced with exactly the pair of the
response; partial update arises only on the failing path where the
response has `accessToken` but lacks `refreshToken`. -/
theorem c2_token_pair_from_response :
    (∀ (fuel : Nat) (oracle : Oracle) (eff : Effect) (email password : String)
        (two_factor_code : Option String) (v : JVal) (eff1 : Effect),
        login fuel oracle eff email password two_factor_code = (.ok v, eff1) →
        ∃ a r, pySubscript v "accessToken" = .ok a
          ∧ pySubscript v "refreshToken" = .ok r
          ∧ eff1.st.access_token = some a
          ∧ eff1.st.refresh_token = some r)
    ∧ (∀ (fuel : Nat) (oracle : Oracle) (eff eff1 : Effect),
        refresh_access_token fuel oracle eff = (.ok (), eff1) →
        ∃ v a r eff2,
          make_request (fuel - 1) oracle eff "POST" "/auth/refresh"
              (some [("refreshToken", refreshTokenVal eff.st)]) none false false
            = (.ok (.jsonBody (some v)), eff2)
          ∧ pySubscript v "accessToken" = .ok a
          ∧ pySubscript v "refreshToken" = .ok r
          ∧ eff1.st.access_token = some a
          ∧ eff1.st.refresh_token = some r) := by
  constructor
  · intro fuel oracle eff email password two_factor_code v eff1 h
    rcases hmk : make_request fuel oracle eff "POST" "/auth/login"
        (some (login_body email password two_factor_code)) none false false with ⟨res, eff0⟩
    rcases res with e | rr
    · simp [login, hmk] at h
    · rcases rr with w | ⟨s, t⟩
      · rcases w with _ | w
        · simp [login, hmk] at h
        · rcases hA : pySubscript w "accessToken" with e | a
          · simp [login, hmk, hA] at h
          · rcases hR : pySubscript w "refreshToken" with e | r
            · simp [login, hmk, hA, hR] at h
            · simp only [login, hmk, hA, hR, Prod.mk.injEq, Except.ok.injEq] at h
              obtain ⟨hv, he⟩ := h
              subst hv
              subst he
              exact ⟨a, r, hA, hR, rfl, rfl⟩
      · simp [login, hmk] at h
  · intro fuel oracle eff eff1 h
    cases fuel with
    | zero =>
        simp only [refresh_access_token] at h
        split at h <;> simp at h
    | succ fuel2 =>
        rcases hmk : make_request fuel2 oracle eff "POST" "/auth/refresh"
            (some [("refreshToken", refreshTokenVal eff.st)]) none false false with ⟨res, eff0⟩
        simp only [refresh_access_token] at h
        split at h
        · simp at h
        · rcases res with e | rr
          · simp [hmk] at h
          · rcases rr with w | ⟨s, t⟩
            · rcases w with _ | w
              · simp [hmk] at h
              · rcases hA : pySubscript w "accessToken" with e | a
                · simp [hmk, hA] at h
                · rcases hR : pySubscript w "refreshToken" with e | r
                  · simp [hmk, hA, hR] at h
                  · simp only [hmk, hA, hR, Prod.mk.injEq] at h
                    obtain ⟨_, he⟩ := h
                    subst he
                    exact ⟨w, a, r, eff0, hmk, hA, hR, rfl, rfl⟩
            · simp [hmk] at h

/-- C2 witness: the amended theorem applied to a concrete successful
refresh whose response carries the full pair `("T1", "R1")`. -/
theorem c2_token_pair_from_response_witness :
    refresh_access_token 2 orcFullToken effTokens
      = (.ok (), (refresh_access_token 2 orcFullToken effTokens).2)
    ∧ ∃ v a r eff2,
        make_request (2 - 1) orcFullToken effTokens "POST" "/auth/refresh"
            (some [("refreshToken", refreshTokenVal effTokens.st)]) none false false
          = (.ok (.jsonBody (some v)), eff2)
        ∧ pySubscript v "accessToken" = .ok a
        ∧ pySubscript v "refreshToken" = .ok r
        ∧ (refresh_access_token 2 orcFullToken effTokens).2.st.access_token = some a
        ∧ (refresh_access_token 2 orcFullToken effTokens).2.st.refresh_token = some r :=
  ⟨rfl, c2_token_pair_from_response.2 2 orcFullToken effTokens
    (refresh_access_token 2 orcFullToken effTokens).2 rfl⟩

/-- C5 (amended): for every response with a status in 400-599 — the exact
range `raise_for_status` raises for; non-2xx statuses outside it (3xx)
raise nothing — the raised exception is `AuthenticationError` iff the
status is 401, `ValidationError` iff it is 400 and plain `APIError`
otherwise; when the error body decoded to a dict, `message`/`code`/
`details` come from it (with the in-code defaults for missing keys); when
the body is absent or not valid JSON they are synthesized as `HTTP_<status>`
and a generic status line; a refresh attempted with no refresh token held
raises `AuthenticationError`; and the pipeline really raises
`_handle_error`'s exception for such a response whenever the 401-refresh
branch is not taken. -/
theorem c5_error_mapping :
    (∀ (status : Nat) (text : String) (parsed : Option JVal),
      400 ≤ status → status < 600 →
      ∃ m c d, handle_error status text parsed
        = .api { kind := (if status = 401 then .auth
                          else if status = 400 then .validation else .api),
                 message := m, code := c, status_code := some status, details := d })
    ∧ (∀ (status : Nat) (text : String) (kvs : List (String × JVal)),
      400 ≤ status → status < 600 →
      handle_error status text (some (.obj kvs))
        = .api { kind := (if status = 401 then .auth
                          else if status = 400 then .validation else .api),
                 message := (jLookup kvs "message").getD (.str "An error occurred"),
                 code := some ((jLookup kvs "code").getD (.str "UNKNOWN_ERROR")),
                 status_code := some status,
                 details := jLookup kvs "details" })
    ∧ (∀ (status : Nat) (text : String),
      400 ≤ status → status < 600 →
      handle_error status text none
        = .api { kind := (if status = 401 then .auth
                          else if status = 400 then .validation else .api),
                 message := .str ("HTTP " ++ toString status ++ ": " ++ text),
                 code := some (.str ("HTTP_" ++ toString status)),
                 status_code := some status,
                 details := none })
    ∧ (∀ (fuel : Nat) (oracle : Oracle) (eff : Effect),
      optTruthy eff.st.refresh_token = false →
      (refresh_access_token fuel oracle eff).1 = .error noRefreshTokenErr)
    ∧ (∀ (fuel : Nat) (oracle : Oracle) (eff : Effect) (method endpoint : String)
        (data params : Option (List (String × JVal))) (files stream : Bool)
        (status : Nat) (text : String) (js : Option JVal),
      oracle eff.idx = .resp status text js →
      400 ≤ status → status < 600 →
      ¬(status = 401 ∧ optTruthy eff.st.refresh_token = true) →
      (make_request fuel oracle eff method endpoint data params files stream).1
        = .error (handle_error status text js)) := by
  refine ⟨?_, ?_, ?_, ?_, ?_⟩
  · intro status text parsed _ _
    simp only [handle_error]
    repeat' split
    all_goals exact ⟨_, _, _, rfl⟩
  · intro status text kvs _ _
    simp only [handle_error]
    repeat' split
    all_goals rfl
  · intro status text _ _
    simp only [handle_error]
    repeat' split
    all_goals rfl
  · intro fuel oracle eff hno
    cases fuel <;> simp [refresh_access_token, hno]
  · intro fuel oracle eff method endpoint data params files stream status text js
      hor h400 h600 hcond
    cases fuel <;>
    · simp only [make_request, hor]
      rw [if_neg hcond]
      show finishResponse stream status text js = .error (handle_error status text js)
      simp only [finishResponse]
      rw [if_pos ⟨h400, h600⟩]

/-- C5 witness: a status-400 body `{"message": "Bad title", "code":
"INVALID_TITLE"}` yields a `ValidationError` carrying exactly that code,
by the amended theorem. -/
theorem c5_error_mapping_witness :
    (400 : Nat) ≤ 400 ∧ (400 : Nat) < 600 ∧
    handle_error 400 ""
        (some (.obj [("message", .str "Bad title"), ("code", .str "INVALID_TITLE")]))
      = .api { kind := .validation, message := .str "Bad title",
               code := some (.str "INVALID_TITLE"), status_code := some 400,
               details := none } := by
  refine ⟨by decide, by decide, ?_⟩
  rw [c5_error_mapping.2.1 400 ""
    [("message", .str "Bad title"), ("code", .str "INVALID_TITLE")]
    (by decide) (by decide)]
  rfl

/-- C6: an optional argument the caller omitted (`None` in Python) never
appears in the serialized JSON body: each of the nine optional fields of
`create_contract` is absent from the assembled body when its argument is
`none` (hence in particular never present as JSON null), whatever the
other arguments are; `update_contract` sends exactly the caller's
`**kwargs` mapping as the body, in which an omitted key is simply absent;
and `create_contract` really sends the assembled body. -/
theorem c6_omitted_fields_absent
    (title ty : String) (description : Option String) (value : Option JVal)
    (currency start_date end_date content : Option String)
    (parties : Option (List JVal)) (metadata : Option (List (String × JVal)))
    (tags : Option (List String)) :
    jLookup (create_contract_body title ty none value currency start_date end_date
      content parties metadata tags) "description" = none
    ∧ jLookup (create_contract_body title ty description none currency start_date
      end_date content parties metadata tags) "value" = none
    ∧ jLookup (create_contract_body title ty description value none start_date
      end_date content parties metadata tags) "currency" = none
    ∧ jLookup (create_contract_body title ty description value currency none
      end_date content parties metadata tags) "startDate" = none
    ∧ jLookup (create_contract_body title ty description value currency start_date
      none content parties metadata tags) "endDate" = none
    ∧ jLookup (create_contract_body title ty description value currency start_date
      end_date none parties metadata tags) "content" = none
    ∧ jLookup (create_contract_body title ty description value currency start_date
      end_date content none metadata tags) "parties" = none
    ∧ jLookup (create_contract_body title ty description value currency start_date
      end_date content parties none tags) "metadata" = none
    ∧ jLookup (create_contract_body title ty description value currency start_date
      end_date content parties metadata none) "tags" = none
    ∧ (∀ (fuel : Nat) (oracle : Oracle) (eff : Effect) (cid : String)
        (kwargs : List (String × JVal)),
        ∃ l, (update_contract fuel oracle eff cid kwargs).2.log
            = eff.log ++ firstRequest eff "PUT" ("/contracts/" ++ cid)
                (some kwargs) none false false :: l
          ∧ (firstRequest eff "PUT" ("/contracts/" ++ cid)
              (some kwargs) none false false).body = some kwargs)
    ∧ (∀ (fuel : Nat) (oracle : Oracle) (eff : Effect),
        ∃ l, (create_contract fuel oracle eff title ty description value currency
            start_date end_date content parties metadata tags).2.log
          = eff.log ++ firstRequest eff "POST" "/contracts"
              (some (create_contract_body title ty description value currency
                start_date end_date content parties metadata tags)) none false false :: l) := by
  refine ⟨?_, ?_, ?_, ?_, ?_, ?_, ?_, ?_, ?_, ?_, ?_⟩
  · simp [create_contract_body, jLookup_addIfStr_ne, jLookup_addIfArr_ne,
      jLookup_addIfObj_ne, jLookup_addIfStrArr_ne, jLookup_addIfNotNone_ne,
      addIfStr_none, addIfArr_none, addIfStrArr_none, addIfObj_none,
      addIfNotNone_none, jLookup]
  · simp [create_contract_body, jLookup_addIfStr_ne, jLookup_addIfArr_ne,
      jLookup_addIfObj_ne, jLookup_addIfStrArr_ne, jLookup_addIfNotNone_ne,
      addIfStr_none, addIfArr_none, addIfStrArr_none, addIfObj_none,
      addIfNotNone_none, jLookup]
  · simp [create_contract_body, jLookup_addIfStr_ne, jLookup_addIfArr_ne,
      jLookup_addIfObj_ne, jLookup_addIfStrArr_ne, jLookup_addIfNotNone_ne,
      addIfStr_none, addIfArr_none, addIfStrArr_none, addIfObj_none,
      addIfNotNone_none, jLookup]
  · simp [create_contract_body, jLookup_addIfStr_ne, jLookup_addIfArr_ne,
      jLookup_addIfObj_ne, jLookup_addIfStrArr_ne, jLookup_addIfNotNone_ne,
      addIfStr_none, addIfArr_none, addIfStrArr_none, addIfObj_none,
      addIfNotNone_none, jLookup]
  · simp [create_contract_body, jLookup_addIfStr_ne, jLookup_addIfArr_ne,
      jLookup_addIfObj_ne, jLookup_addIfStrArr_ne, jLookup_addIfNotNone_ne,
      addIfStr_none, addIfArr_none, addIfStrArr_none, addIfObj_none,
      addIfNotNone_none, jLookup]
  · simp [create_contract_body, jLookup_addIfStr_ne, jLookup_addIfArr_ne,
      jLookup_addIfObj_ne, jLookup_addIfStrArr_ne, jLookup_addIfNotNone_ne,
      addIfStr_none, addIfArr_none, addIfStrArr_none, addIfObj_none,
      addIfNotNone_none, jLookup]
  · simp [create_contract_body, jLookup_addIfStr_ne, jLookup_addIfArr_ne,
      jLookup_addIfObj_ne, jLookup_addIfStrArr_ne, jLookup_addIfNotNone_ne,
      addIfStr_none, addIfArr_none, addIfStrArr_none, addIfObj_none,
      addIfNotNone_none, jLookup]
  · simp [create_contract_body, jLookup_addIfStr_ne, jLookup_addIfArr_ne,
      jLookup_addIfObj_ne, jLookup_addIfStrArr_ne, jLookup_addIfNotNone_ne,
      addIfStr_none, addIfArr_none, addIfStrArr_none, addIfObj_none,
      addIfNotNone_none, jLookup]
  · simp [create_contract_body, jLookup_addIfStr_ne, jLookup_addIfArr_ne,
      jLookup_addIfObj_ne, jLookup_addIfStrArr_ne, jLookup_addIfNotNone_ne,
      addIfStr_none, addIfArr_none, addIfStrArr_none, addIfObj_none,
      addIfNotNone_none, jLookup]
  · intro fuel oracle eff cid kwargs
    obtain ⟨l, hl⟩ := make_request_log fuel oracle eff "PUT" ("/contracts/" ++ cid)
      (some kwargs) none false false
    exact ⟨l, hl, rfl⟩
  · intro fuel oracle eff
    exact make_request_log fuel oracle eff "POST" "/contracts" _ none false false

/-- C8: whenever a request is executed while a (truthy) access token is
held, the request `_make_request` sends first carries an `Authorization`
header whose value is exactly `"Bearer "` followed by the token. -/
theorem c8_bearer_authorization_header
    (fuel : Nat) (oracle : Oracle) (eff : Effect) (method endpoint : String)
    (data params : Option (List (String × JVal))) (files stream : Bool)
    (t : String) (h : eff.st.access_token = some (.str t)) (ht : t ≠ "") :
    ∃ l, (make_request fuel oracle eff method endpoint data params files stream).2.log
        = eff.log ++ firstRequest eff method endpoint data params files stream :: l
      ∧ (firstRequest eff method endpoint data params files stream).headers.lookup
          "Authorization" = some ("Bearer " ++ t) := by
  obtain ⟨l, hl⟩ := make_request_log fuel oracle eff method endpoint data params files stream
  refine ⟨l, hl, ?_⟩
  have hreq : requestHeaders eff.st = [("Authorization", "Bearer " ++ t)] := by
    simp [requestHeaders, h, pyTruthy, pyStr, ht]
  rcases hk : eff.st.api_key with _ | k
  · simp [firstRequest, mergeHeaders, sessionHeaders, hk, hreq, List.lookup]
  · by_cases hke : k = "" <;>
      simp [firstRequest, mergeHeaders, sessionHeaders, hk, hke, hreq, List.lookup]

/-- C8 witness: the theorem applied to a concrete client holding the
access token `"TOK"`. -/
theorem c8_bearer_authorization_header_witness :
    effBearerOnly.st.access_token = some (.str "TOK")
    ∧ ∃ l, (make_request 1 orcOk effBearerOnly "GET" "/users/me" none none false false).2.log
        = effBearerOnly.log ++ firstRequest effBearerOnly "GET" "/users/me" none none false false :: l
      ∧ (firstRequest effBearerOnly "GET" "/users/me" none none false false).headers.lookup
          "Authorization" = some ("Bearer " ++ "TOK") :=
  ⟨rfl, c8_bearer_authorization_header 1 orcOk effBearerOnly "GET" "/users/me"
    none none false false "TOK" rfl (by decide)⟩

/-- C9: when both an API key and a (truthy) access token are set, the
request sent carries both the bearer `Authorization` header and the
`X-API-Key` header — it is authenticated — and the (spec-modelled) server
credential resolution picks the bearer header over the API key. -/
theorem c9_bearer_takes_precedence
    (fuel : Nat) (oracle : Oracle) (eff : Effect) (method endpoint : String)
    (data params : Option (List (String × JVal))) (files stream : Bool)
    (t k : String) (h : eff.st.access_token = some (.str t)) (ht : t ≠ "")
    (hk : eff.st.api_key = some k) (hke : k ≠ "") :
    ∃ l, (make_request fuel oracle eff method endpoint data params files stream).2.log
        = eff.log ++ firstRequest eff method endpoint data params files stream :: l
      ∧ (firstRequest eff method endpoint data params files stream).headers.lookup
          "Authorization" = some ("Bearer " ++ t)
      ∧ (firstRequest eff method endpoint data params files stream).headers.lookup
          "X-API-Key" = some k
      ∧ serverAuthMethod (firstRequest eff method endpoint data params files stream).headers
          = .bearer ("Bearer " ++ t) := by
  obtain ⟨l, hl⟩ := make_request_log fuel oracle eff method endpoint data params files stream
  have hreq : requestHeaders eff.st = [("Authorization", "Bearer " ++ t)] := by
    simp [requestHeaders, h, pyTruthy, pyStr, ht]
  have hauth : (firstRequest eff method endpoint data params files stream).headers.lookup
      "Authorization" = some ("Bearer " ++ t) := by
    simp [firstRequest, mergeHeaders, sessionHeaders, hk, hke, hreq, List.lookup]
  have hkey : (firstRequest eff method endpoint data params files stream).headers.lookup
      "X-API-Key" = some k := by
    simp [firstRequest, mergeHeaders, sessionHeaders, hk, hke, hreq, List.lookup]
  refine ⟨l, hl, hauth, hkey, ?_⟩
  simp [serverAuthMethod, hauth]

/-- C9 witness: the theorem applied to a concrete client holding both the
access token `"TOK9"` and the API key `"KEY9"`. -/
theorem c9_bearer_takes_precedence_witness :
    effBoth.st.access_token = some (.str "TOK9")
    ∧ effBoth.st.api_key = some "KEY9"
    ∧ ∃ l, (make_request 1 orcOk effBoth "GET" "/users/me" none none false false).2.log
        = effBoth.log ++ firstRequest effBoth "GET" "/users/me" none none false false :: l
      ∧ (firstRequest effBoth "GET" "/users/me" none none false false).headers.lookup
          "Authorization" = some ("Bearer " ++ "TOK9")
      ∧ (firstRequest effBoth "GET" "/users/me" none none false false).headers.lookup
          "X-API-Key" = some "KEY9"
      ∧ serverAuthMethod (firstRequest effBoth "GET" "/users/me" none none false false).headers
          = .bearer ("Bearer " ++ "TOK9") :=
  ⟨rfl, rfl, c9_bearer_takes_precedence 1 orcOk effBoth "GET" "/users/me"
    none none false false "TOK9" "KEY9" rfl (by decide) rfl (by decide)⟩

/-- C10: in the wrapper methods most optional arguments are included by
truthiness — an empty string, empty list or empty dict produces exactly
the same body or query mapping as omitting the argument — whereas the
numeric fields `value` (`create_contract`) and `price` (`create_template`)
are tested with `is not None` and are therefore sent even when 0.  So no
truthiness-tested field can ever be transmitted empty-but-present. -/
theorem c10_truthiness_vs_presence
    (title ty : String) (description : Option String) (value : Option JVal)
    (currency start_date end_date content : Option String)
    (parties : Option (List JVal)) (metadata : Option (List (String × JVal)))
    (tags : Option (List String))
    (name category tcontent : String) (is_public : Bool)
    (vars : Option (List JVal)) (tpl_tags : Option (List String)) (price : Option JVal)
    (ty2 search : Option String) (page limit : Int) (sort_by sort_order : String)
    (ccontent : String) :
    create_contract_body title ty (some "") value currency start_date end_date
      content parties metadata (some [])
      = create_contract_body title ty none value currency start_date end_date
        content parties metadata none
    ∧ create_contract_body title ty description value (some "") (some "") (some "")
      (some "") (some []) (some []) tags
      = create_contract_body title ty description value none none none none
        none none tags
    ∧ create_template_body name category tcontent is_public (some "") (some [])
      (some []) price
      = create_template_body name category tcontent is_public none none none price
    ∧ get_contracts_params (some "") ty2 search page limit sort_by sort_order
      = get_contracts_params none ty2 search page limit sort_by sort_order
    ∧ add_comment_body ccontent (some "") (some []) (some [])
      = add_comment_body ccontent none none none
    ∧ jLookup (create_contract_body title ty description (some (.num 0)) currency
        start_date end_date content parties metadata tags) "value" = some (.num 0)
    ∧ jLookup (create_template_body name category tcontent is_public description
        vars tpl_tags (some (.num 0))) "price" = some (.num 0) := by
  refine ⟨rfl, rfl, rfl, rfl, rfl, ?_, ?_⟩
  · simp [create_contract_body, jLookup_addIfStr_ne, jLookup_addIfArr_ne,
      jLookup_addIfObj_ne, jLookup_addIfStrArr_ne, jLookup_addIfNotNone_some, jLookup]
  · simp [create_template_body, jLookup_addIfStr_ne, jLookup_addIfArr_ne,
      jLookup_addIfObj_ne, jLookup_addIfStrArr_ne, jLookup_addIfNotNone_some, jLookup]

end ContractSDK
